import Mathlib

/-
Verification of the Modbus/HTTP gateway in src/main.py.

The program is a FastAPI application wrapping a minimalmodbus Instrument
bound to one EVSE slave device.  We embed it shallowly:

* The minimalmodbus library is the external collaborator.  It is modelled
  by the structure Instrument: one field per library method used by the
  program.  Each field takes the index of the Modbus exchange about to be
  issued (the length of the trace so far), so that test doubles can succeed
  or fail at a chosen position, and returns either a decoded value or the
  message of a raised ModbusException.

* Each helper of main.py (read_register, read_string, read_float,
  write_register, write_float) and each route handler is a function in the
  monad M: it threads a state St holding the Instrument and the ordered
  trace of Modbus exchanges issued so far, and returns either a value or an
  HTTPException, exactly as the Python code raises
  HTTPException(status_code=500, detail=str(e)) from a caught
  ModbusException.  An exchange is recorded on the trace whether it
  succeeds or fails, since the request was issued either way.

* Python dicts preserve insertion order, so a handler's JSON body is a
  list of (field name, value) pairs in the order the dict literal writes
  them; the dict literal evaluates its values, hence issues its reads, in
  exactly that order.

* IEEE-754 binary32 values are modelled by their sign / biased exponent /
  mantissa fields (Float32 below); the register codec for them is modelled
  from the spec since the packing lives inside minimalmodbus, not in src/.
-/

/-- Modelled from the spec: an IEEE-754 binary32 value, represented by its
sign bit, biased exponent field and mantissa (fraction) field.  A value is
within the representable range when the exponent field is below 255 (255
encodes infinities and NaNs, which are not finite) and the mantissa fits in
23 bits.  The float codec of the Register Codec is not in src/ (the program
delegates it to the minimalmodbus library), so it is modelled here from the
spec's description as the standard binary32 bit layout split across two
16-bit registers, most significant register first. -/
structure Float32 where
  sign : Bool
  exponent : Nat
  mantissa : Nat

/-- Modelled from the spec: encode_float packs a binary32 value into its
32-bit pattern (sign bit 31, exponent bits 30..23, mantissa bits 22..0) and
splits it across two consecutive 16-bit registers. -/
def encode_float (f : Float32) : Nat × Nat :=
  let bits := (if f.sign then 2 ^ 31 else 0) + f.exponent * 2 ^ 23 + f.mantissa
  (bits / 2 ^ 16, bits % 2 ^ 16)

/-- Modelled from the spec: decode_float reinterprets two consecutive
16-bit registers as the 32-bit pattern of a binary32 value. -/
def decode_float (registers : Nat × Nat) : Float32 :=
  let bits := registers.1 * 2 ^ 16 + registers.2
  ⟨bits / 2 ^ 31 % 2 == 1, bits / 2 ^ 23 % 256, bits % 2 ^ 23⟩

/-- One Modbus request/response exchange issued to the instrument, as seen
by the device: which minimalmodbus method was called and with which
arguments. -/
inductive MbOp where
  | readRegister (address : Nat)
  | readLong (address : Nat) (number_of_registers : Nat)
  | readString (address : Nat) (length : Nat)
  | readFloat (address : Nat)
  | writeRegister (address : Nat) (value : Nat)
  | writeFloat (address : Nat) (value : Float32)

/-- fastapi.HTTPException as raised by the helpers of main.py. -/
structure HTTPException where
  status_code : Nat
  detail : String

/-- The minimalmodbus Instrument as used by main.py: one field per library
method.  Each field receives the index of the exchange about to be issued
(the number of exchanges issued so far) followed by the method's arguments,
and returns the decoded value, or the message of the ModbusException the
library raises on any transport-level fault. -/
structure Instrument where
  read_register : Nat → Nat → Except String Nat
  read_long : Nat → Nat → Nat → Except String Nat
  read_string : Nat → Nat → Nat → Except String String
  read_float : Nat → Nat → Except String Float32
  write_register : Nat → Nat → Nat → Except String Unit
  write_float : Nat → Nat → Float32 → Except String Unit

/-- Execution state: the process-wide instrument and the ordered trace of
Modbus exchanges issued so far. -/
structure St where
  dev : Instrument
  trace : List MbOp

/-- Record one issued exchange on the trace. -/
def pushOp (s : St) (op : MbOp) : St :=
  ⟨s.dev, s.trace ++ [op]⟩

/-- The handler monad: state threading plus HTTPException propagation
(Python exception propagation made explicit). -/
def M (α : Type) : Type :=
  St → Except HTTPException α × St

def pureM {α : Type} (a : α) : M α :=
  fun s => (Except.ok a, s)

def bindM {α β : Type} (x : M α) (f : α → M β) : M β :=
  fun s =>
    match x s with
    | (Except.ok a, s2) => f a s2
    | (Except.error e, s2) => (Except.error e, s2)

/-- pydantic model Configuration of main.py: every field optional,
None meaning absent. -/
structure Configuration where
  external_charging_current_limitation : Option Float32

/-- pydantic model Functions of main.py: every field optional,
None meaning absent. -/
structure Functions where
  master_heartbeat : Option Nat
  solar_charge_mode : Option Nat
  req_phase_usage : Option Nat
  charging_release : Option Nat
  lockmode : Option Nat

/-- A decoded JSON value appearing in a response body. -/
inductive Value where
  | int (n : Nat)
  | flt (f : Float32)
  | str (s : String)

/-- Helper read_register of main.py: a count of 1 issues
instrument.read_register(address), any other count issues
instrument.read_long(address, number_of_registers=count); a caught
ModbusException is re-raised as HTTPException(500, str(e)). -/
def read_register (address : Nat) (number_of_registers : Nat) : M Nat :=
  fun s =>
    if number_of_registers = 1 then
      match s.dev.read_register s.trace.length address with
      | Except.ok v => (Except.ok v, pushOp s (MbOp.readRegister address))
      | Except.error e =>
          (Except.error ⟨500, e⟩, pushOp s (MbOp.readRegister address))
    else
      match s.dev.read_long s.trace.length address number_of_registers with
      | Except.ok v =>
          (Except.ok v, pushOp s (MbOp.readLong address number_of_registers))
      | Except.error e =>
          (Except.error ⟨500, e⟩,
           pushOp s (MbOp.readLong address number_of_registers))

/-- In main.py the number_of_registers parameter defaults to 1 when the
caller omits it. -/
def read_register_default (address : Nat) : M Nat :=
  read_register address 1

/-- Helper read_string of main.py. -/
def read_string (address : Nat) (length : Nat) : M String :=
  fun s =>
    match s.dev.read_string s.trace.length address length with
    | Except.ok v => (Except.ok v, pushOp s (MbOp.readString address length))
    | Except.error e =>
        (Except.error ⟨500, e⟩, pushOp s (MbOp.readString address length))

/-- Helper read_float of main.py. -/
def read_float (address : Nat) : M Float32 :=
  fun s =>
    match s.dev.read_float s.trace.length address with
    | Except.ok v => (Except.ok v, pushOp s (MbOp.readFloat address))
    | Except.error e =>
        (Except.error ⟨500, e⟩, pushOp s (MbOp.readFloat address))

/-- Helper write_register of main.py. -/
def write_register (address : Nat) (value : Nat) : M Unit :=
  fun s =>
    match s.dev.write_register s.trace.length address value with
    | Except.ok _ =>
        (Except.ok (), pushOp s (MbOp.writeRegister address value))
    | Except.error e =>
        (Except.error ⟨500, e⟩, pushOp s (MbOp.writeRegister address value))

/-- Helper write_float of main.py. -/
def write_float (address : Nat) (value : Float32) : M Unit :=
  fun s =>
    match s.dev.write_float s.trace.length address value with
    | Except.ok _ => (Except.ok (), pushOp s (MbOp.writeFloat address value))
    | Except.error e =>
        (Except.error ⟨500, e⟩, pushOp s (MbOp.writeFloat address value))

/-- GET /api/version_info of main.py. -/
def get_version_info : M (List (String × Value)) :=
  bindM (read_register 0x0000 1) fun layout =>
  bindM (read_string 0x0001 8) fun firmware =>
  bindM (read_string 0x0009 8) fun serial =>
  bindM (read_register 0x0011 1) fun hw =>
  bindM (read_register 0x0012 1) fun product =>
  pureM [("layout_version", Value.int layout),
         ("firmware_version", Value.str firmware),
         ("serial_number", Value.str serial),
         ("hw_version", Value.int hw),
         ("product_id", Value.int product)]

/-- GET /api/status of main.py. -/
def get_status : M (List (String × Value)) :=
  bindM (read_register 0x0100 1) fun evse =>
  bindM (read_register 0x0101 1) fun release =>
  bindM (read_register 0x0102 1) fun downgrading =>
  bindM (read_register 0x0103 1) fun rotation =>
  bindM (read_register 0x0104 2) fun bootup =>
  pureM [("evse_state", Value.int evse),
         ("external_charging_release_state", Value.int release),
         ("external_downgrading_state", Value.int downgrading),
         ("phase_rotation", Value.int rotation),
         ("bootup_token", Value.int bootup)]

/-- GET /api/configuration of main.py. -/
def get_configuration : M (List (String × Value)) :=
  bindM (read_float 0x0300) fun downgrading =>
  bindM (read_float 0x0302) fun limitation =>
  bindM (read_float 0x0304) fun group =>
  bindM (read_float 0x0306) fun evse =>
  bindM (read_register 0x030A 1) fun selective =>
  pureM [("external_downgrading_current", Value.flt downgrading),
         ("external_charging_current_limitation", Value.flt limitation),
         ("max_current_evse_group", Value.flt group),
         ("max_current_evse", Value.flt evse),
         ("selective_phase_switching_option", Value.int selective)]

/-- POST /api/configuration of main.py. -/
def set_configuration (config : Configuration) : M (List (String × String)) :=
  bindM (match config.external_charging_current_limitation with
         | some v => write_float 0x0302 v
         | none => pureM ()) fun _ =>
  pureM [("status", "Configuration updated")]

/-- GET /api/output_measurements of main.py. -/
def get_output_measurements : M (List (String × Value)) :=
  bindM (read_float 0x0500) fun c1 =>
  bindM (read_float 0x0502) fun c2 =>
  bindM (read_float 0x0504) fun c3 =>
  bindM (read_float 0x0506) fun v1 =>
  bindM (read_float 0x0508) fun v2 =>
  bindM (read_float 0x050A) fun v3 =>
  bindM (read_float 0x050C) fun p1 =>
  bindM (read_float 0x050E) fun p2 =>
  bindM (read_float 0x0510) fun p3 =>
  bindM (read_float 0x0512) fun overall =>
  pureM [("current_l1", Value.flt c1),
         ("current_l2", Value.flt c2),
         ("current_l3", Value.flt c3),
         ("voltage_l1", Value.flt v1),
         ("voltage_l2", Value.flt v2),
         ("voltage_l3", Value.flt v3),
         ("power_l1", Value.flt p1),
         ("power_l2", Value.flt p2),
         ("power_l3", Value.flt p3),
         ("power_overall", Value.flt overall)]

/-- GET /api/charging_session of main.py. -/
def get_charging_session : M (List (String × Value)) :=
  bindM (read_float 0x0B00) fun current =>
  bindM (read_float 0x0B02) fun energy =>
  bindM (read_register 0x0B04 2) fun duration =>
  pureM [("max_session_charging_current", Value.flt current),
         ("session_charging_energy", Value.flt energy),
         ("session_duration", Value.int duration)]

/-- GET /api/functions of main.py. -/
def get_functions : M (List (String × Value)) :=
  bindM (read_register 0x0D03 1) fun solar =>
  bindM (read_register 0x0D04 1) fun phase =>
  bindM (read_register 0x0D05 1) fun release =>
  bindM (read_register 0x0D06 1) fun lock =>
  pureM [("solar_charge_mode", Value.int solar),
         ("req_phase_usage", Value.int phase),
         ("charging_release", Value.int release),
         ("lockmode", Value.int lock)]

/-- POST /api/functions of main.py: one conditional write per field, in
declared order. -/
def set_functions (func : Functions) : M (List (String × String)) :=
  bindM (match func.master_heartbeat with
         | some v => write_register 0x0D00 v
         | none => pureM ()) fun _ =>
  bindM (match func.solar_charge_mode with
         | some v => write_register 0x0D03 v
         | none => pureM ()) fun _ =>
  bindM (match func.req_phase_usage with
         | some v => write_register 0x0D04 v
         | none => pureM ()) fun _ =>
  bindM (match func.charging_release with
         | some v => write_register 0x0D05 v
         | none => pureM ()) fun _ =>
  bindM (match func.lockmode with
         | some v => write_register 0x0D06 v
         | none => pureM ()) fun _ =>
  pureM [("status", "Functions updated")]

/-- GET /api/diagnostic of main.py. -/
def get_diagnostic : M (List (String × Value)) :=
  bindM (read_register 0x0E00 2) fun code =>
  pureM [("last_error_code", Value.int code)]

/-! Test doubles used to instantiate the theorems below. -/

/-- A double on which every exchange succeeds with a default value. -/
def okDev : Instrument where
  read_register := fun _ _ => Except.ok 0
  read_long := fun _ _ _ => Except.ok 0
  read_string := fun _ _ _ => Except.ok ""
  read_float := fun _ _ => Except.ok ⟨false, 0, 0⟩
  write_register := fun _ _ _ => Except.ok ()
  write_float := fun _ _ _ => Except.ok ()

/-- A double on which every exchange fails with the same message. -/
def boomDev : Instrument where
  read_register := fun _ _ => Except.error "boom"
  read_long := fun _ _ _ => Except.error "boom"
  read_string := fun _ _ _ => Except.error "boom"
  read_float := fun _ _ => Except.error "boom"
  write_register := fun _ _ _ => Except.error "boom"
  write_float := fun _ _ _ => Except.error "boom"

/-- A fresh state around a double: no exchange issued yet. -/
def st0 (d : Instrument) : St :=
  ⟨d, []⟩

/-- C1: every Transport Adapter verb of main.py turns any fault of the
underlying Modbus exchange into the single uniform error
HTTPException(500, message) carrying the underlying message, issuing
exactly the one failed exchange (no retry) and preserving no fault
subtype.  Stated for each verb, including both branches of read_register. -/
theorem transport_fault_uniform_500 (s : St) (e : String)
    (address n value len : Nat) (fv : Float32) :
    (s.dev.read_register s.trace.length address = Except.error e →
      read_register address 1 s =
        (Except.error ⟨500, e⟩, pushOp s (MbOp.readRegister address)))
    ∧ (n ≠ 1 →
        s.dev.read_long s.trace.length address n = Except.error e →
        read_register address n s =
          (Except.error ⟨500, e⟩, pushOp s (MbOp.readLong address n)))
    ∧ (s.dev.read_string s.trace.length address len = Except.error e →
        read_string address len s =
          (Except.error ⟨500, e⟩, pushOp s (MbOp.readString address len)))
    ∧ (s.dev.read_float s.trace.length address = Except.error e →
        read_float address s =
          (Except.error ⟨500, e⟩, pushOp s (MbOp.readFloat address)))
    ∧ (s.dev.write_register s.trace.length address value = Except.error e →
        write_register address value s =
          (Except.error ⟨500, e⟩, pushOp s (MbOp.writeRegister address value)))
    ∧ (s.dev.write_float s.trace.length address fv = Except.error e →
        write_float address fv s =
          (Except.error ⟨500, e⟩, pushOp s (MbOp.writeFloat address fv))) := by
  refine ⟨fun h => ?_, fun hn h => ?_, fun h => ?_, fun h => ?_,
          fun h => ?_, fun h => ?_⟩
  · simp [read_register, h]
  · simp [read_register, hn, h]
  · simp [read_string, h]
  · simp [read_float, h]
  · simp [write_register, h]
  · simp [write_float, h]

/-- C1 witness: each verb run against a double that always fails with
message "boom" yields exactly HTTPException(500, "boom") and a
single-exchange trace. -/
theorem transport_fault_uniform_500_witness :
    read_register 5 1 (st0 boomDev) =
      (Except.error ⟨500, "boom"⟩, pushOp (st0 boomDev) (MbOp.readRegister 5))
    ∧ read_register 5 2 (st0 boomDev) =
      (Except.error ⟨500, "boom"⟩, pushOp (st0 boomDev) (MbOp.readLong 5 2))
    ∧ read_string 5 8 (st0 boomDev) =
      (Except.error ⟨500, "boom"⟩, pushOp (st0 boomDev) (MbOp.readString 5 8))
    ∧ read_float 5 (st0 boomDev) =
      (Except.error ⟨500, "boom"⟩, pushOp (st0 boomDev) (MbOp.readFloat 5))
    ∧ write_register 5 7 (st0 boomDev) =
      (Except.error ⟨500, "boom"⟩,
       pushOp (st0 boomDev) (MbOp.writeRegister 5 7))
    ∧ write_float 5 ⟨false, 131, 0⟩ (st0 boomDev) =
      (Except.error ⟨500, "boom"⟩,
       pushOp (st0 boomDev) (MbOp.writeFloat 5 ⟨false, 131, 0⟩)) := by
  have h := transport_fault_uniform_500 (st0 boomDev) "boom" 5 2 7 8
    ⟨false, 131, 0⟩
  exact ⟨h.1 rfl, h.2.1 (by decide) rfl, h.2.2.1 rfl, h.2.2.2.1 rfl,
         h.2.2.2.2.1 rfl, h.2.2.2.2.2 rfl⟩

/-- C6: a payload with all fields absent is a no-op for both write-style
handlers: zero Transport Adapter writes are issued (the trace and state are
unchanged) and the success acknowledgment is returned. -/
theorem empty_payload_writes_nothing (s : St) :
    set_configuration ⟨none⟩ s = (Except.ok [("status", "Configuration updated")], s)
    ∧ set_functions ⟨none, none, none, none, none⟩ s =
        (Except.ok [("status", "Functions updated")], s) :=
  ⟨rfl, rfl⟩

/-- C8: for every binary32 value in the finite representable range
(exponent field below 255, mantissa below 2^23), decoding the two-register
encoding gives the value back exactly. -/
theorem decode_encode_float_roundtrip (f : Float32)
    (he : f.exponent < 255) (hm : f.mantissa < 2 ^ 23) :
    decode_float (encode_float f) = f := by
  obtain ⟨s, e, m⟩ := f
  simp only at he hm
  simp only [encode_float, decode_float]
  have hrec : ∀ B : Nat, B / 2 ^ 16 * 2 ^ 16 + B % 2 ^ 16 = B := by
    intro B; omega
  rw [hrec]
  cases s with
  | false =>
    simp only [Bool.false_eq_true, if_false, Float32.mk.injEq,
      beq_eq_false_iff_ne, ne_eq]
    refine ⟨by omega, by omega, by omega⟩
  | true =>
    simp only [eq_self_iff_true, if_true, Float32.mk.injEq, beq_iff_eq]
    refine ⟨by omega, by omega, by omega⟩

/-- C8 witness: the value 16.0 (sign 0, biased exponent 131, mantissa 0)
round-trips through the two-register encoding. -/
theorem decode_encode_float_roundtrip_witness :
    decode_float (encode_float ⟨false, 131, 0⟩) = ⟨false, 131, 0⟩ :=
  decode_encode_float_roundtrip ⟨false, 131, 0⟩ (by decide) (by decide)

/-- C10: the helper read_register of main.py dispatches purely on the
register count: a count of 1 issues a single-register read; any other
count, 0 and counts above 2 included, issues a multi-register long read of
exactly that many registers rather than rejecting the count; and the count
defaults to 1 when the caller omits it. -/
theorem read_register_count_dispatch (s : St) (address n v : Nat) :
    read_register_default address = read_register address 1
    ∧ (s.dev.read_register s.trace.length address = Except.ok v →
        read_register address 1 s =
          (Except.ok v, pushOp s (MbOp.readRegister address)))
    ∧ (n ≠ 1 →
        s.dev.read_long s.trace.length address n = Except.ok v →
        read_register address n s =
          (Except.ok v, pushOp s (MbOp.readLong address n))) := by
  refine ⟨rfl, fun h => ?_, fun hn h => ?_⟩
  · simp [read_register, h]
  · simp [read_register, hn, h]

/-- C10 witness: a count of 0 is not rejected; it issues a long read of 0
registers against a double that accepts it. -/
theorem read_register_count_dispatch_witness :
    read_register 5 0 (st0 okDev) =
      (Except.ok 0, pushOp (st0 okDev) (MbOp.readLong 5 0)) :=
  (read_register_count_dispatch (st0 okDev) 5 0 0).2.2 (by decide) rfl

/-- The claim's expected writes for a Functions payload: one integer
register write per present field, in the declared field order, to the
addresses 0x0D00, 0x0D03, 0x0D04, 0x0D05, 0x0D06, skipping absent fields.
Built from the claim's words, to be compared with set_functions. -/
def functionsWrites (func : Functions) : List MbOp :=
  (match func.master_heartbeat with
   | some v => [MbOp.writeRegister 0x0D00 v]
   | none => []) ++
  (match func.solar_charge_mode with
   | some v => [MbOp.writeRegister 0x0D03 v]
   | none => []) ++
  (match func.req_phase_usage with
   | some v => [MbOp.writeRegister 0x0D04 v]
   | none => []) ++
  (match func.charging_release with
   | some v => [MbOp.writeRegister 0x0D05 v]
   | none => []) ++
  (match func.lockmode with
   | some v => [MbOp.writeRegister 0x0D06 v]
   | none => [])

/-- C2: when every write succeeds, POST /api/functions issues exactly one
integer register write per present field, in the declared order
master_heartbeat, solar_charge_mode, req_phase_usage, charging_release,
lockmode, to 0x0D00, 0x0D03, 0x0D04, 0x0D05, 0x0D06 respectively, skips
absent fields, and acknowledges success. -/
theorem set_functions_write_order (func : Functions) (s : St)
    (h : ∀ i a v, s.dev.write_register i a v = Except.ok ()) :
    set_functions func s =
      (Except.ok [("status", "Functions updated")],
       ⟨s.dev, s.trace ++ functionsWrites func⟩) := by
  obtain ⟨mh, sc, rp, cr, lm⟩ := func
  cases mh <;> cases sc <;> cases rp <;> cases cr <;> cases lm <;>
    simp [set_functions, functionsWrites, bindM, pureM, write_register,
      pushOp, h]

/-- C2 witness: a payload with only lockmode present issues exactly one
write, to 0x0D06. -/
theorem set_functions_write_order_witness :
    set_functions ⟨none, none, none, none, some 1⟩ (st0 okDev) =
      (Except.ok [("status", "Functions updated")],
       ⟨okDev, [MbOp.writeRegister 0x0D06 1]⟩) := by
  simpa [functionsWrites, st0] using
    set_functions_write_order ⟨none, none, none, none, some 1⟩ (st0 okDev)
      (fun _ _ _ => rfl)

/-- C4: GET /api/status reads exactly 0x0100, 0x0101, 0x0102, 0x0103 as
single registers and 0x0104 as a two-register long, in that order, and
returns the five values under the field names evse_state,
external_charging_release_state, external_downgrading_state,
phase_rotation, bootup_token, in that field order. -/
theorem get_status_reads_and_fields (d : Instrument) (v0 v1 v2 v3 v4 : Nat)
    (h0 : ∀ i, d.read_register i 0x0100 = Except.ok v0)
    (h1 : ∀ i, d.read_register i 0x0101 = Except.ok v1)
    (h2 : ∀ i, d.read_register i 0x0102 = Except.ok v2)
    (h3 : ∀ i, d.read_register i 0x0103 = Except.ok v3)
    (h4 : ∀ i, d.read_long i 0x0104 2 = Except.ok v4) :
    get_status (st0 d) =
      (Except.ok [("evse_state", Value.int v0),
                  ("external_charging_release_state", Value.int v1),
                  ("external_downgrading_state", Value.int v2),
                  ("phase_rotation", Value.int v3),
                  ("bootup_token", Value.int v4)],
       ⟨d, [MbOp.readRegister 0x0100, MbOp.readRegister 0x0101,
            MbOp.readRegister 0x0102, MbOp.readRegister 0x0103,
            MbOp.readLong 0x0104 2]⟩) := by
  simp [get_status, bindM, pureM, read_register, pushOp, st0,
    h0, h1, h2, h3, h4]

/-- The device double of the claim's end-to-end status scenario. -/
def statusDev : Instrument where
  read_register := fun _ a =>
    if a = 0x0100 then Except.ok 3
    else if a = 0x0101 then Except.ok 1
    else if a = 0x0102 then Except.ok 0
    else if a = 0x0103 then Except.ok 1
    else Except.error "unexpected"
  read_long := fun _ a n =>
    if a = 0x0104 then
      if n = 2 then Except.ok 123456 else Except.error "unexpected"
    else Except.error "unexpected"
  read_string := fun _ _ _ => Except.error "unexpected"
  read_float := fun _ _ => Except.error "unexpected"
  write_register := fun _ _ _ => Except.error "unexpected"
  write_float := fun _ _ _ => Except.error "unexpected"

/-- C4 witness: against the double returning 3, 1, 0, 1 and the combined
long 123456, the response is exactly the claimed JSON object. -/
theorem get_status_reads_and_fields_witness :
    get_status (st0 statusDev) =
      (Except.ok [("evse_state", Value.int 3),
                  ("external_charging_release_state", Value.int 1),
                  ("external_downgrading_state", Value.int 0),
                  ("phase_rotation", Value.int 1),
                  ("bootup_token", Value.int 123456)],
       ⟨statusDev, [MbOp.readRegister 0x0100, MbOp.readRegister 0x0101,
                    MbOp.readRegister 0x0102, MbOp.readRegister 0x0103,
                    MbOp.readLong 0x0104 2]⟩) :=
  get_status_reads_and_fields statusDev 3 1 0 1 123456
    (fun _ => rfl) (fun _ => rfl) (fun _ => rfl) (fun _ => rfl)
    (fun _ => rfl)

/-- C5: POST /api/configuration with external_charging_current_limitation
present issues exactly one float write, to 0x0302, with exactly the given
value, writes no other register, and acknowledges with status
"Configuration updated". -/
theorem set_configuration_single_float_write (v : Float32) (s : St)
    (h : ∀ i a x, s.dev.write_float i a x = Except.ok ()) :
    set_configuration ⟨some v⟩ s =
      (Except.ok [("status", "Configuration updated")],
       ⟨s.dev, s.trace ++ [MbOp.writeFloat 0x0302 v]⟩) := by
  simp [set_configuration, bindM, pureM, write_float, pushOp, h]

/-- C5 witness: the claim's scenario with the value 16.0 (sign 0, biased
exponent 131, mantissa 0): exactly one float write to 0x0302 with 16.0. -/
theorem set_configuration_single_float_write_witness :
    set_configuration ⟨some ⟨false, 131, 0⟩⟩ (st0 okDev) =
      (Except.ok [("status", "Configuration updated")],
       ⟨okDev, [MbOp.writeFloat 0x0302 ⟨false, 131, 0⟩]⟩) := by
  simpa [st0] using
    set_configuration_single_float_write ⟨false, 131, 0⟩ (st0 okDev)
      (fun _ _ _ => rfl)

/-- A double whose writes succeed for the first k exchanges and fail with
message e from the k-th exchange on. -/
def failWriteDev (k : Nat) (e : String) : Instrument where
  read_register := fun _ _ => Except.error e
  read_long := fun _ _ _ => Except.error e
  read_string := fun _ _ _ => Except.error e
  read_float := fun _ _ => Except.error e
  write_register := fun i _ _ =>
    if i < k then Except.ok () else Except.error e
  write_float := fun i _ _ =>
    if i < k then Except.ok () else Except.error e

/-- C7: on an all-fields-present POST /api/functions payload whose k-th
write fails after the first k writes succeeded (1 ≤ k ≤ 4), the earlier
writes remain issued on the trace (no rollback, no read-modify-write), the
failing exchange was issued, nothing is written after it, and the handler
surfaces the bare uniform HTTPException(500, message), which names none of
the fields that succeeded. -/
theorem set_functions_no_rollback (a b c d l k : Nat) (e : String)
    (hk1 : 1 ≤ k) (hk4 : k ≤ 4) :
    set_functions ⟨some a, some b, some c, some d, some l⟩
        (st0 (failWriteDev k e)) =
      (Except.error ⟨500, e⟩,
       ⟨failWriteDev k e,
        List.take (k + 1)
          [MbOp.writeRegister 0x0D00 a, MbOp.writeRegister 0x0D03 b,
           MbOp.writeRegister 0x0D04 c, MbOp.writeRegister 0x0D05 d,
           MbOp.writeRegister 0x0D06 l]⟩) := by
  interval_cases k <;> rfl

/-- C7 witness: with the third write failing, the first two writes stay
issued and the error is the bare 500 with the underlying message. -/
theorem set_functions_no_rollback_witness :
    set_functions ⟨some 10, some 1, some 2, some 1, some 1⟩
        (st0 (failWriteDev 2 "boom")) =
      (Except.error ⟨500, "boom"⟩,
       ⟨failWriteDev 2 "boom",
        List.take 3
          [MbOp.writeRegister 0x0D00 10, MbOp.writeRegister 0x0D03 1,
           MbOp.writeRegister 0x0D04 2, MbOp.writeRegister 0x0D05 1,
           MbOp.writeRegister 0x0D06 1]⟩) :=
  set_functions_no_rollback 10 1 2 1 1 2 "boom" (by decide) (by decide)

/-- A double that serves the first k exchanges with default values and
fails every exchange from the k-th on. -/
def failDev (k : Nat) : Instrument where
  read_register := fun i _ =>
    if i < k then Except.ok 0 else Except.error "transport failure"
  read_long := fun i _ _ =>
    if i < k then Except.ok 0 else Except.error "transport failure"
  read_string := fun i _ _ =>
    if i < k then Except.ok "" else Except.error "transport failure"
  read_float := fun i _ =>
    if i < k then Except.ok ⟨false, 0, 0⟩
    else Except.error "transport failure"
  write_register := fun i _ _ =>
    if i < k then Except.ok () else Except.error "transport failure"
  write_float := fun i _ _ =>
    if i < k then Except.ok () else Except.error "transport failure"

/-- C3: for every read-style handler and every position N at which the
read fails (0-based: reads 0..N-1 succeed, read N fails), the handler
aborts there: it returns a transport error, not a partial aggregate, and
its trace holds exactly the N+1 issued reads, none beyond the failing
one.  Stated for all seven read-style handlers, each quantified over all
its read positions. -/
theorem read_handlers_abort_on_first_failure (N : Nat) :
    (N < 5 →
      (get_version_info (st0 (failDev N))).1 =
        Except.error ⟨500, "transport failure"⟩
      ∧ ((get_version_info (st0 (failDev N))).2).trace.length = N + 1)
    ∧ (N < 5 →
      (get_status (st0 (failDev N))).1 =
        Except.error ⟨500, "transport failure"⟩
      ∧ ((get_status (st0 (failDev N))).2).trace.length = N + 1)
    ∧ (N < 5 →
      (get_configuration (st0 (failDev N))).1 =
        Except.error ⟨500, "transport failure"⟩
      ∧ ((get_configuration (st0 (failDev N))).2).trace.length = N + 1)
    ∧ (N < 10 →
      (get_output_measurements (st0 (failDev N))).1 =
        Except.error ⟨500, "transport failure"⟩
      ∧ ((get_output_measurements (st0 (failDev N))).2).trace.length = N + 1)
    ∧ (N < 3 →
      (get_charging_session (st0 (failDev N))).1 =
        Except.error ⟨500, "transport failure"⟩
      ∧ ((get_charging_session (st0 (failDev N))).2).trace.length = N + 1)
    ∧ (N < 4 →
      (get_functions (st0 (failDev N))).1 =
        Except.error ⟨500, "transport failure"⟩
      ∧ ((get_functions (st0 (failDev N))).2).trace.length = N + 1)
    ∧ (N < 1 →
      (get_diagnostic (st0 (failDev N))).1 =
        Except.error ⟨500, "transport failure"⟩
      ∧ ((get_diagnostic (st0 (failDev N))).2).trace.length = N + 1) := by
  refine ⟨fun h => ?_, fun h => ?_, fun h => ?_, fun h => ?_, fun h => ?_,
          fun h => ?_, fun h => ?_⟩ <;>
    interval_cases N <;> exact ⟨rfl, rfl⟩

/-- C3 witness: GET /api/status against a double failing on its third read
returns the transport error and issued exactly three reads. -/
theorem read_handlers_abort_on_first_failure_witness :
    (get_status (st0 (failDev 2))).1 =
      Except.error ⟨500, "transport failure"⟩
    ∧ ((get_status (st0 (failDev 2))).2).trace.length = 2 + 1 :=
  (read_handlers_abort_on_first_failure 2).2.1 (by decide)
